import Mathlib

/-!
Shallow embedding of `src/download.py` (YouTube Video Downloader API).

The program is a FastAPI service with one endpoint, `POST /download`.  It
shells out to two external binaries (`yt-dlp`, `ffmpeg`).  We embed the
program as pure Lean functions:

* the external world is an `Env` oracle telling which tools are runnable,
  and what exit status / stderr each external invocation would produce;
* every Python function that may spawn subprocesses returns its result
  together with the list of commands it attempted to run (the spawn trace);
* Python exceptions become an explicit `PyErr` sum, threaded with `Except`;
* Python `int` is `Int`, Python strings are Lean `String`.

`urlparse` (CPython `urllib.parse`) is embedded only as far as the source
uses it: the `scheme` and `netloc` components, following CPython's
`urlsplit` (scheme = text before the first `:` when it is a well-formed
scheme token; netloc = text after a leading `//` up to the next `/`, `?`
or `#`).
-/

/-- A command line: the argv list handed to `subprocess.run`. -/
abbrev Cmd := List String

/-- Python exceptions that the program raises or catches.
`httpException s d` models `fastapi.HTTPException(status_code := s, detail := d)`;
Starlette gives it `str(e) = f"{status_code}: {detail}"`. -/
inductive PyErr where
  | valueError (msg : String)
  | runtimeError (msg : String)
  | httpException (status : Nat) (detail : String)
deriving DecidableEq, Repr

/-- Oracle for the external world: whether the two tools answer their
version probes, and the outcome of each further invocation.
`none` models exit status 0; `some stderr` models a non-zero exit with
that stderr text. -/
structure Env where
  ytDlpOk : Bool
  ffmpegOk : Bool
  probe : String → Option String
  fetch : Cmd → Option String

/-- Python `str.lower()` (ASCII case mapping, which is all the source feeds it). -/
def pyLower (s : String) : String := ⟨s.data.map Char.toLower⟩

/-- Python `str.strip()`: drop whitespace from both ends. -/
def pyStrip (s : String) : String :=
  ⟨((s.data.dropWhile Char.isWhitespace).reverse.dropWhile Char.isWhitespace).reverse⟩

/-- Characters CPython allows in a URL scheme after the leading letter. -/
def schemeChar (c : Char) : Bool :=
  c.isAlpha || c.isDigit || c = '+' || c = '-' || c = '.'

/-- Split a character list at the first `:`; `none` when there is none. -/
def findColonSplit : List Char → Option (List Char × List Char)
  | [] => none
  | c :: rest =>
    if c = ':' then some ([], rest)
    else
      match findColonSplit rest with
      | some (pre, post) => some (c :: pre, post)
      | none => none

/-- CPython `urlsplit` scheme extraction: the text before the first `:`
is the scheme iff it is nonempty, starts with an ASCII letter and uses
only scheme characters; the scheme is lowercased. -/
def splitScheme (cs : List Char) : List Char × List Char :=
  match findColonSplit cs with
  | none => ([], cs)
  | some (pre, post) =>
    match pre with
    | [] => ([], cs)
    | c0 :: _ =>
      if c0.isAlpha && pre.all schemeChar then (pre.map Char.toLower, post)
      else ([], cs)

/-- CPython `urlsplit` netloc extraction: after the scheme, a leading `//`
introduces the netloc, which runs to the next `/`, `?` or `#`. -/
def netlocOf : List Char → List Char
  | '/' :: '/' :: rest => rest.takeWhile fun c => !(c = '/' || c = '?' || c = '#')
  | _ => []

/-- The `scheme` and `netloc` components of `urlparse(url)`. -/
def urlparseSchemeNetloc (url : String) : List Char × List Char :=
  let (scheme, rest) := splitScheme url.data
  (scheme, netlocOf rest)

/-- `_is_youtube_url` (src/download.py lines 33-41): require a scheme and a
netloc, lowercase the netloc, and accept iff it ends with `youtube.com`
or `youtu.be`. -/
def is_youtube_url (url : String) : Bool :=
  let (scheme, netloc) := urlparseSchemeNetloc url
  if scheme.isEmpty || netloc.isEmpty then false
  else
    let hostname := netloc.map Char.toLower
    "youtube.com".data.isSuffixOf hostname || "youtu.be".data.isSuffixOf hostname

/-- `check_dependencies` (lines 20-29): run `yt-dlp --version` then
`ffmpeg -version`; a missing/failing tool raises `RuntimeError` naming it. -/
def check_dependencies (env : Env) : Except PyErr Unit × List Cmd :=
  let t1 : List Cmd := [["yt-dlp", "--version"]]
  if !env.ytDlpOk then
    (.error (.runtimeError "yt-dlp is not installed. Install with: pip install yt-dlp"), t1)
  else
    let t2 := t1 ++ [["ffmpeg", "-version"]]
    if !env.ffmpegOk then
      (.error (.runtimeError "ffmpeg is not installed. Install from https://ffmpeg.org/"), t2)
    else (.ok (), t2)

/-- The dry-run probe command built at lines 48-55. -/
def probeCmd (url : String) : Cmd :=
  ["yt-dlp", "--simulate", "--skip-download", "--quiet", "--no-warnings", url]

/-- `validate_youtube_url_downloadable` (lines 44-60): `ValueError` when the
URL fails the host check (before any subprocess); otherwise dependency
check, then the simulate probe, whose non-zero exit becomes a `ValueError`
carrying the stripped stderr. -/
def validate_youtube_url_downloadable (env : Env) (url : String) :
    Except PyErr Unit × List Cmd :=
  if !is_youtube_url url then
    (.error (.valueError "Provided URL is not a valid YouTube link."), [])
  else
    match check_dependencies env with
    | (.error e, t) => (.error e, t)
    | (.ok _, t) =>
      match env.probe url with
      | none => (.ok (), t ++ [probeCmd url])
      | some stderr =>
        (.error (.valueError
            ("The provided YouTube URL is not downloadable. " ++ pyStrip stderr)),
          t ++ [probeCmd url])

/-- `Path(p).name`: the part after the last `/`. -/
def pathName (p : String) : String :=
  ⟨(p.data.reverse.takeWhile fun c => c ≠ '/').reverse⟩

/-- The yt-dlp command built by `download_full_video` (lines 71-76). -/
def fullCmd (url : String) (quality : Int) (output_path : String) : Cmd :=
  ["yt-dlp", "--format", "best[height<=" ++ toString quality ++ "]",
   "--output", output_path, url]

/-- `download_full_video` (lines 64-81): validate, default the filename to
`full_video.mp4` when none (or empty) is supplied, run yt-dlp; non-zero
exit raises `RuntimeError` carrying stderr. -/
def download_full_video (env : Env) (url : String) (quality : Int)
    (output_filename : Option String) : Except PyErr String × List Cmd :=
  match validate_youtube_url_downloadable env url with
  | (.error e, t) => (.error e, t)
  | (.ok _, t) =>
    let fname :=
      match output_filename with
      | none => "full_video.mp4"
      | some s => if s = "" then "full_video.mp4" else s
    let output_path := "downloads/" ++ fname
    let cmd := fullCmd url quality output_path
    match env.fetch cmd with
    | none => (.ok output_path, t ++ [cmd])
    | some stderr =>
      (.error (.runtimeError ("Error downloading video: " ++ stderr)), t ++ [cmd])

/-- The yt-dlp command built by `download_video_segment` (lines 92-99):
the transcoder is attached as external downloader with a seek of
`start_time` and a duration of `end_time - start_time`. -/
def segmentCmd (url : String) (start_time end_time quality : Int)
    (output_path : String) : Cmd :=
  ["yt-dlp", "--format", "best[height<=" ++ toString quality ++ "]",
   "--external-downloader", "ffmpeg",
   "--external-downloader-args",
   "ffmpeg:-ss " ++ toString start_time ++ " -t " ++ toString (end_time - start_time),
   "--output", output_path, url]

/-- `download_video_segment` (lines 84-104): validate, compute
`duration = end_time - start_time`, default the filename to
`video_segment_{start}s_to_{end}s.mp4`, run yt-dlp with ffmpeg as
external downloader; non-zero exit raises `RuntimeError` carrying stderr. -/
def download_video_segment (env : Env) (url : String)
    (start_time end_time quality : Int) (output_filename : Option String) :
    Except PyErr String × List Cmd :=
  match validate_youtube_url_downloadable env url with
  | (.error e, t) => (.error e, t)
  | (.ok _, t) =>
    let fname :=
      match output_filename with
      | none =>
        "video_segment_" ++ toString start_time ++ "s_to_" ++ toString end_time ++ "s.mp4"
      | some s =>
        if s = "" then
          "video_segment_" ++ toString start_time ++ "s_to_" ++ toString end_time ++ "s.mp4"
        else s
    let output_path := "downloads/" ++ fname
    let cmd := segmentCmd url start_time end_time quality output_path
    match env.fetch cmd with
    | none => (.ok output_path, t ++ [cmd])
    | some stderr =>
      (.error (.runtimeError ("Error downloading video segment: " ++ stderr)), t ++ [cmd])

/-- The request body model (`VideoRequest`, lines 108-113). -/
structure VideoRequest where
  url : String
  quality : Int := 720
  mode : String := "full"
  start_time : Option Int := none
  end_time : Option Int := none

/-- The cleanup task scheduled at line 145:
`background.add_task(file_path.unlink, True)` — `Path.unlink` with
`missing_ok` passed positionally as `True`. -/
structure CleanupTask where
  path : String
  missing_ok : Bool
deriving DecidableEq, Repr

/-- Outcome of one `POST /download` call: either a streamed file response
(with the scheduled post-send cleanup task) or an HTTP error. -/
inductive Outcome where
  | success (path : String) (filename : String) (cleanup : CleanupTask)
  | error (status : Nat) (detail : String)
deriving DecidableEq, Repr

/-- HTTP status of an outcome (a streamed `FileResponse` is a 200). -/
def Outcome.status : Outcome → Nat
  | .success _ _ _ => 200
  | .error s _ => s

/-- The `except Exception` clause at lines 148-151: a `ValueError` becomes a
400 with its message; anything else — including the handler's own
`HTTPException`, whose `str` is `"{status}: {detail}"` — becomes a 500
with `str(e)` as detail. -/
def exceptionToHttp : PyErr → Nat × String
  | .valueError msg => (400, msg)
  | .runtimeError msg => (500, msg)
  | .httpException s d => (500, toString s ++ ": " ++ d)

/-- The body of the `try:` block (lines 119-146): dispatch on
`mode.lower()`, check segment bounds for presence only, call the
download function, build the response and schedule cleanup. -/
def api_download_try (env : Env) (req : VideoRequest) :
    Except PyErr String × List Cmd :=
  if pyLower req.mode = "segment" then
    match req.start_time, req.end_time with
    | some s, some e => download_video_segment env req.url s e req.quality none
    | _, _ =>
      (.error (.httpException 400
          "For segment mode, start_time and end_time must be provided"), [])
  else
    download_full_video env req.url req.quality none

/-- `api_download` (lines 118-151): the try body, wrapped by the
catch-all that maps exceptions to HTTP errors; on success a
`FileResponse` with the file's name, plus the scheduled deletion. -/
def api_download (env : Env) (req : VideoRequest) : Outcome × List Cmd :=
  match api_download_try env req with
  | (.ok path, t) => (.success path (pathName path) ⟨path, true⟩, t)
  | (.error e, t) => (.error (exceptionToHttp e).1 (exceptionToHttp e).2, t)

/-- `Path.unlink(missing_ok)` over a filesystem modelled as the list of
existing paths: deleting an existing file removes it; deleting a missing
file is an error unless `missing_ok`. -/
def unlink (fs : List String) (path : String) (missing_ok : Bool) :
    Except PyErr (List String) :=
  if path ∈ fs then .ok (fs.filter fun q => q ≠ path)
  else if missing_ok then .ok fs
  else .error (.runtimeError "FileNotFoundError")

/-- An environment in which both tools are present and every invocation
succeeds. -/
def testEnv : Env :=
  { ytDlpOk := true, ffmpegOk := true, probe := fun _ => none, fetch := fun _ => none }

/-- An environment in which `yt-dlp --version` fails. -/
def noYtDlpEnv : Env :=
  { ytDlpOk := false, ffmpegOk := true, probe := fun _ => none, fetch := fun _ => none }

/-- An environment in which `ffmpeg -version` fails. -/
def noFfmpegEnv : Env :=
  { ytDlpOk := true, ffmpegOk := false, probe := fun _ => none, fetch := fun _ => none }

/-- An environment in which every download invocation exits non-zero with
the given stderr text. -/
def failFetchEnv (stderr : String) : Env :=
  { ytDlpOk := true, ffmpegOk := true, probe := fun _ => none, fetch := fun _ => some stderr }

/-! ## Helper lemmas -/

/-- Lowercasing an ASCII digit leaves it unchanged. -/
theorem toLower_of_isDigit (c : Char) (h : c.isDigit = true) : c.toLower = c := by
  simp only [Char.isDigit, Bool.and_eq_true, decide_eq_true_eq] at h
  obtain ⟨_, h2⟩ := h
  have h3 : c.val.toNat ≤ 57 := UInt32.toNat_le_of_le (by norm_num [UInt32.size]) h2
  simp only [Char.toLower, Char.toNat]
  rw [if_neg]
  omega

/-- Mapping `Char.toLower` commutes with taking the last element. -/
theorem getLast?_map_toLower (p : List Char) :
    (p.map Char.toLower).getLast? = p.getLast?.map Char.toLower := by
  rw [List.getLast?_eq_head?_reverse, ← List.map_reverse, List.head?_map,
    ← List.getLast?_eq_head?_reverse]

/-- A list whose last element differs from the candidate suffix's last
element cannot have that suffix. -/
theorem not_isSuffixOf_of_getLast_ne (l₁ l₂ : List Char) (a b : Char)
    (h1 : l₁.getLast? = some a) (h2 : l₂.getLast? = some b) (hne : a ≠ b) :
    l₁.isSuffixOf l₂ = false := by
  by_contra hc
  rw [Bool.not_eq_false, List.isSuffixOf_iff_suffix] at hc
  obtain ⟨t, ht⟩ := hc
  rw [← ht, List.getLast?_append, h1] at h2
  simp at h2
  exact hne h2

/-- When the URL passes the host check, both tools answer their version
probes and the simulate probe exits zero, validation succeeds and its
spawn trace is exactly: the two version probes, then the dry-run probe. -/
theorem validate_ok (env : Env) (url : String)
    (hyt : env.ytDlpOk = true) (hff : env.ffmpegOk = true)
    (hurl : is_youtube_url url = true) (hpr : env.probe url = none) :
    validate_youtube_url_downloadable env url =
      (.ok (), [["yt-dlp", "--version"], ["ffmpeg", "-version"], probeCmd url]) := by
  unfold validate_youtube_url_downloadable check_dependencies
  simp [hurl, hyt, hff, hpr]

/-- `unlink` with `missing_ok` succeeds on any filesystem and leaves
exactly the other files. -/
theorem unlink_existing_or_missing_ok (fs : List String) (path : String) :
    unlink fs path true = .ok (fs.filter fun q => q ≠ path) := by
  unfold unlink
  by_cases hmem : path ∈ fs
  · rw [if_pos hmem]
  · rw [if_neg hmem, if_pos rfl]
    have heq : List.filter (fun q => decide (q ≠ path)) fs = fs := by
      apply List.filter_eq_self.mpr
      intro a ha
      simp only [ne_eq, decide_not, Bool.not_eq_true', decide_eq_false_iff_not]
      intro hqe
      exact hmem (hqe ▸ ha)
    rw [heq]

/-- `unlink` with `missing_ok` on an absent file is not an error. -/
theorem unlink_missing_ok_of_not_mem (fs : List String) (path : String)
    (h : path ∉ fs) : unlink fs path true = .ok fs := by
  unfold unlink
  rw [if_neg h, if_pos rfl]

/-! ## Claims -/

/-- Claim C1 (code bug): a segment-mode request missing a time bound spawns
zero external processes, but the handler answers HTTP 500, not the claimed
400 — its own `HTTPException(400)` is caught by the catch-all at lines
148-151, which is only lenient to `ValueError`, and is re-raised as a 500
whose detail is the stringified original exception. -/
theorem c1_missing_bounds_give_500 (env : Env) (req : VideoRequest)
    (hm : pyLower req.mode = "segment")
    (hb : req.start_time = none ∨ req.end_time = none) :
    api_download env req =
      (.error 500 "400: For segment mode, start_time and end_time must be provided", []) := by
  have hbody : api_download_try env req =
      (.error (.httpException 400
        "For segment mode, start_time and end_time must be provided"), []) := by
    unfold api_download_try
    rw [if_pos hm]
    rcases hs : req.start_time with _ | s <;> rcases he : req.end_time with _ | e <;>
      simp_all
  unfold api_download
  rw [hbody]
  rfl

/-- Witness for C1 at a concrete request with both bounds absent. -/
theorem c1_missing_bounds_give_500_witness :
    pyLower "segment" = "segment" ∧
    api_download testEnv ⟨"https://www.youtube.com/watch?v=abc", 720, "segment", none, none⟩ =
      (.error 500 "400: For segment mode, start_time and end_time must be provided", []) :=
  ⟨by decide, c1_missing_bounds_give_500 testEnv _ (by decide) (Or.inl rfl)⟩

/-- Claim C2, refuted as stated: a segment request with both bounds present
and end_time = 5 ≤ 10 = start_time nevertheless reaches the external fetch
tool — the spawn trace of the handler contains the yt-dlp download command
(with duration -5 passed through). -/
theorem c2_segment_counterexample :
    (5 : Int) ≤ 10 ∧
    ((api_download testEnv
        ⟨"https://www.youtube.com/watch?v=abc", 720, "segment", some 10, some 5⟩).2).contains
      (segmentCmd "https://www.youtube.com/watch?v=abc" 10 5 720
        "downloads/video_segment_10s_to_5s.mp4") = true := by
  constructor
  · norm_num
  · rfl

/-- Claim C2 as amended: only presence of the bounds is enforced; whenever
both bounds are present, the segment request is dispatched to the external
fetch tool for every pair of bounds — with no ordering or range check —
and the command passes quality and the bounds through verbatim, with
duration computed as `end_time - start_time` (possibly ≤ 0). -/
theorem c2_bounds_passed_through (env : Env) (url : String) (q s e : Int)
    (hyt : env.ytDlpOk = true) (hff : env.ffmpegOk = true)
    (hurl : is_youtube_url url = true) (hpr : env.probe url = none) :
    (api_download env ⟨url, q, "segment", some s, some e⟩).2 =
      [["yt-dlp", "--version"], ["ffmpeg", "-version"], probeCmd url,
       segmentCmd url s e q
         ("downloads/" ++ ("video_segment_" ++ toString s ++ "s_to_" ++ toString e ++ "s.mp4"))] := by
  simp only [api_download, api_download_try]
  rw [if_pos (by decide : pyLower "segment" = "segment")]
  unfold download_video_segment
  rw [validate_ok env url hyt hff hurl hpr]
  cases hfe : env.fetch ["yt-dlp", "--format", "best[height<=" ++ toString q ++ "]",
      "--external-downloader", "ffmpeg",
      "--external-downloader-args",
      "ffmpeg:-ss " ++ toString s ++ " -t " ++ toString (e - s),
      "--output",
      "downloads/" ++ ("video_segment_" ++ toString s ++ "s_to_" ++ toString e ++ "s.mp4"),
      url] <;>
    simp [hfe, segmentCmd]

/-- Witness for the amended C2 at start 10, end 5. -/
theorem c2_bounds_passed_through_witness :
    testEnv.ytDlpOk = true ∧ testEnv.ffmpegOk = true ∧
    is_youtube_url "https://www.youtube.com/watch?v=abc" = true ∧
    testEnv.probe "https://www.youtube.com/watch?v=abc" = none ∧
    (api_download testEnv
        ⟨"https://www.youtube.com/watch?v=abc", 720, "segment", some 10, some 5⟩).2 =
      [["yt-dlp", "--version"], ["ffmpeg", "-version"],
       probeCmd "https://www.youtube.com/watch?v=abc",
       segmentCmd "https://www.youtube.com/watch?v=abc" 10 5 720
         "downloads/video_segment_10s_to_5s.mp4"] :=
  ⟨rfl, rfl, by decide, rfl,
   c2_bounds_passed_through testEnv "https://www.youtube.com/watch?v=abc" 720 10 5
     rfl rfl (by decide) rfl⟩

/-- Claim C3 (confirmed): whenever the parsed URL lacks a scheme or a
netloc, or its lowercased netloc ends with neither `youtube.com` nor
`youtu.be`, validation fails with the InvalidURL `ValueError` and the
spawn trace is empty — in particular the dry-run probe is never started. -/
theorem c3_bad_host_rejected_no_probe (env : Env) (url : String)
    (h : (urlparseSchemeNetloc url).1 = [] ∨ (urlparseSchemeNetloc url).2 = [] ∨
      ("youtube.com".data.isSuffixOf ((urlparseSchemeNetloc url).2.map Char.toLower) = false ∧
       "youtu.be".data.isSuffixOf ((urlparseSchemeNetloc url).2.map Char.toLower) = false)) :
    validate_youtube_url_downloadable env url =
      (.error (.valueError "Provided URL is not a valid YouTube link."), []) := by
  have hfalse : is_youtube_url url = false := by
    unfold is_youtube_url
    rcases h with h | h | ⟨h1, h2⟩
    · simp [h]
    · simp [h]
    · by_cases hc : (urlparseSchemeNetloc url).1.isEmpty || (urlparseSchemeNetloc url).2.isEmpty
      · simp [hc]
      · simp [hc, h1, h2]
  unfold validate_youtube_url_downloadable
  simp [hfalse]

/-- Witness for C3 at a non-YouTube host. -/
theorem c3_bad_host_rejected_no_probe_witness :
    ("youtube.com".data.isSuffixOf
        ((urlparseSchemeNetloc "https://example.com/watch").2.map Char.toLower) = false ∧
     "youtu.be".data.isSuffixOf
        ((urlparseSchemeNetloc "https://example.com/watch").2.map Char.toLower) = false) ∧
    validate_youtube_url_downloadable testEnv "https://example.com/watch" =
      (.error (.valueError "Provided URL is not a valid YouTube link."), []) :=
  ⟨⟨by decide, by decide⟩,
   c3_bad_host_rejected_no_probe testEnv "https://example.com/watch"
     (Or.inr (Or.inr ⟨by decide, by decide⟩))⟩

/-- Claim C4 (confirmed): for every segment fetch the spawned yt-dlp
command carries external-downloader args whose duration is exactly
`end_time - start_time` (seek offset `start_time`). -/
theorem c4_duration_is_end_minus_start (env : Env) (url : String) (s e q : Int)
    (hyt : env.ytDlpOk = true) (hff : env.ffmpegOk = true)
    (hurl : is_youtube_url url = true) (hpr : env.probe url = none) :
    (download_video_segment env url s e q none).2 =
      [["yt-dlp", "--version"], ["ffmpeg", "-version"], probeCmd url,
       ["yt-dlp", "--format", "best[height<=" ++ toString q ++ "]",
        "--external-downloader", "ffmpeg",
        "--external-downloader-args",
        "ffmpeg:-ss " ++ toString s ++ " -t " ++ toString (e - s),
        "--output",
        "downloads/" ++ ("video_segment_" ++ toString s ++ "s_to_" ++ toString e ++ "s.mp4"),
        url]] := by
  unfold download_video_segment
  rw [validate_ok env url hyt hff hurl hpr]
  cases hfe : env.fetch ["yt-dlp", "--format", "best[height<=" ++ toString q ++ "]",
      "--external-downloader", "ffmpeg",
      "--external-downloader-args",
      "ffmpeg:-ss " ++ toString s ++ " -t " ++ toString (e - s),
      "--output",
      "downloads/" ++ ("video_segment_" ++ toString s ++ "s_to_" ++ toString e ++ "s.mp4"),
      url] <;>
    simp [hfe, segmentCmd]

/-- Witness for C4: start 10, end 25 yields the argument string
with duration 15. -/
theorem c4_duration_is_end_minus_start_witness :
    is_youtube_url "https://youtu.be/abc" = true ∧
    (download_video_segment testEnv "https://youtu.be/abc" 10 25 720 none).2 =
      [["yt-dlp", "--version"], ["ffmpeg", "-version"],
       probeCmd "https://youtu.be/abc",
       ["yt-dlp", "--format", "best[height<=720]",
        "--external-downloader", "ffmpeg",
        "--external-downloader-args", "ffmpeg:-ss 10 -t 15",
        "--output", "downloads/video_segment_10s_to_25s.mp4",
        "https://youtu.be/abc"]] :=
  ⟨by decide,
   c4_duration_is_end_minus_start testEnv "https://youtu.be/abc" 10 25 720
     rfl rfl (by decide) rfl⟩

/-- Claim C5 (confirmed): with no caller-supplied filename, a successful
full fetch produces the file `full_video.mp4` and a successful segment
fetch with start 10, end 25 produces `video_segment_10s_to_25s.mp4`,
both under the transient `downloads` directory. -/
theorem c5_default_filenames (env : Env) (url : String) (q : Int)
    (hyt : env.ytDlpOk = true) (hff : env.ffmpegOk = true)
    (hurl : is_youtube_url url = true) (hpr : env.probe url = none)
    (hf : ∀ c, env.fetch c = none) :
    (download_full_video env url q none).1 = .ok "downloads/full_video.mp4" ∧
    pathName "downloads/full_video.mp4" = "full_video.mp4" ∧
    (download_video_segment env url 10 25 q none).1 =
      .ok "downloads/video_segment_10s_to_25s.mp4" ∧
    pathName "downloads/video_segment_10s_to_25s.mp4" = "video_segment_10s_to_25s.mp4" := by
  refine ⟨?_, by decide, ?_, by decide⟩
  · unfold download_full_video
    rw [validate_ok env url hyt hff hurl hpr]
    simp [hf]
  · unfold download_video_segment
    rw [validate_ok env url hyt hff hurl hpr]
    simp only [hf]
    rfl

/-- Witness for C5 at a concrete URL and quality 480. -/
theorem c5_default_filenames_witness :
    is_youtube_url "https://youtu.be/abc" = true ∧
    (download_full_video testEnv "https://youtu.be/abc" 480 none).1 =
      .ok "downloads/full_video.mp4" ∧
    pathName "downloads/full_video.mp4" = "full_video.mp4" ∧
    (download_video_segment testEnv "https://youtu.be/abc" 10 25 480 none).1 =
      .ok "downloads/video_segment_10s_to_25s.mp4" ∧
    pathName "downloads/video_segment_10s_to_25s.mp4" = "video_segment_10s_to_25s.mp4" :=
  ⟨by decide,
   c5_default_filenames testEnv "https://youtu.be/abc" 480
     rfl rfl (by decide) rfl (fun _ => rfl)⟩

/-- Claim C6 (confirmed): when the external fetch process exits non-zero,
both fetch modes raise `RuntimeError` carrying the tool's stderr, and the
handler surfaces it as HTTP 500 whose detail contains that text. -/
theorem c6_fetch_failure_is_500_with_stderr (env : Env) (url : String) (q : Int)
    (stderr : String)
    (hyt : env.ytDlpOk = true) (hff : env.ffmpegOk = true)
    (hurl : is_youtube_url url = true) (hpr : env.probe url = none)
    (hf : ∀ c, env.fetch c = some stderr) :
    (api_download env ⟨url, q, "full", none, none⟩).1 =
      .error 500 ("Error downloading video: " ++ stderr) ∧
    (api_download env ⟨url, q, "segment", some 10, some 25⟩).1 =
      .error 500 ("Error downloading video segment: " ++ stderr) := by
  constructor
  · simp only [api_download, api_download_try]
    rw [if_neg (by decide : ¬ pyLower "full" = "segment")]
    unfold download_full_video
    rw [validate_ok env url hyt hff hurl hpr]
    simp [hf, exceptionToHttp]
  · simp only [api_download, api_download_try]
    rw [if_pos (by decide : pyLower "segment" = "segment")]
    unfold download_video_segment
    rw [validate_ok env url hyt hff hurl hpr]
    simp [hf, exceptionToHttp]

/-- Witness for C6 with stderr text `boom`. -/
theorem c6_fetch_failure_is_500_with_stderr_witness :
    (failFetchEnv "boom").ytDlpOk = true ∧
    is_youtube_url "https://youtu.be/abc" = true ∧
    (api_download (failFetchEnv "boom") ⟨"https://youtu.be/abc", 720, "full", none, none⟩).1 =
      .error 500 "Error downloading video: boom" ∧
    (api_download (failFetchEnv "boom")
        ⟨"https://youtu.be/abc", 720, "segment", some 10, some 25⟩).1 =
      .error 500 "Error downloading video segment: boom" := by
  have main := c6_fetch_failure_is_500_with_stderr (failFetchEnv "boom")
    "https://youtu.be/abc" 720 "boom" rfl rfl (by decide) rfl (fun _ => rfl)
  exact ⟨rfl, by decide, main.1, main.2⟩

/-- Claim C7 (confirmed): a missing or unrunnable tool surfaces as HTTP
500 (a server error, never the 400 client error) naming the tool, and the
dependency check runs inside every validation call, its two version
probes preceding the dry-run probe in the spawn trace — there is no
caching across calls. -/
theorem c7_missing_dependency_is_500 (env1 env2 env3 : Env) (url : String) (q : Int)
    (hurl : is_youtube_url url = true)
    (h1 : env1.ytDlpOk = false)
    (h2a : env2.ytDlpOk = true) (h2b : env2.ffmpegOk = false)
    (h3a : env3.ytDlpOk = true) (h3b : env3.ffmpegOk = true) :
    (api_download env1 ⟨url, q, "full", none, none⟩).1 =
      .error 500 "yt-dlp is not installed. Install with: pip install yt-dlp" ∧
    (api_download env2 ⟨url, q, "full", none, none⟩).1 =
      .error 500 "ffmpeg is not installed. Install from https://ffmpeg.org/" ∧
    (validate_youtube_url_downloadable env3 url).2 =
      [["yt-dlp", "--version"], ["ffmpeg", "-version"], probeCmd url] := by
  refine ⟨?_, ?_, ?_⟩
  · simp only [api_download, api_download_try]
    rw [if_neg (by decide : ¬ pyLower "full" = "segment")]
    unfold download_full_video validate_youtube_url_downloadable check_dependencies
    simp [hurl, h1, exceptionToHttp]
  · simp only [api_download, api_download_try]
    rw [if_neg (by decide : ¬ pyLower "full" = "segment")]
    unfold download_full_video validate_youtube_url_downloadable check_dependencies
    simp [hurl, h2a, h2b, exceptionToHttp]
  · unfold validate_youtube_url_downloadable check_dependencies
    cases hpe : env3.probe url <;> simp [hurl, h3a, h3b, hpe]

/-- Witness for C7 with each tool missing in turn. -/
theorem c7_missing_dependency_is_500_witness :
    noYtDlpEnv.ytDlpOk = false ∧
    noFfmpegEnv.ytDlpOk = true ∧ noFfmpegEnv.ffmpegOk = false ∧
    is_youtube_url "https://youtu.be/abc" = true ∧
    (api_download noYtDlpEnv ⟨"https://youtu.be/abc", 720, "full", none, none⟩).1 =
      .error 500 "yt-dlp is not installed. Install with: pip install yt-dlp" ∧
    (api_download noFfmpegEnv ⟨"https://youtu.be/abc", 720, "full", none, none⟩).1 =
      .error 500 "ffmpeg is not installed. Install from https://ffmpeg.org/" ∧
    (validate_youtube_url_downloadable testEnv "https://youtu.be/abc").2 =
      [["yt-dlp", "--version"], ["ffmpeg", "-version"],
       probeCmd "https://youtu.be/abc"] := by
  have main := c7_missing_dependency_is_500 noYtDlpEnv noFfmpegEnv testEnv
    "https://youtu.be/abc" 720 (by decide) rfl rfl rfl rfl rfl
  exact ⟨rfl, rfl, rfl, by decide, main.1, main.2.1, main.2.2⟩

/-- Claim C8 (confirmed): every successful response schedules deletion of
exactly the produced file with the missing-file condition ignored
(`unlink` with `missing_ok = True`); running the scheduled task removes
the file from transient storage, and running it again on the
already-removed file succeeds without an observable error. -/
theorem c8_cleanup_deletes_ignoring_missing (env : Env) (req : VideoRequest)
    (path fn : String) (cl : CleanupTask) (fs : List String)
    (h : (api_download env req).1 = .success path fn cl) :
    cl = ⟨path, true⟩ ∧
    unlink fs path cl.missing_ok = .ok (fs.filter fun q => q ≠ path) ∧
    path ∉ fs.filter (fun q => q ≠ path) ∧
    unlink (fs.filter fun q => q ≠ path) path cl.missing_ok =
      .ok (fs.filter fun q => q ≠ path) := by
  have hcl : cl = ⟨path, true⟩ := by
    unfold api_download at h
    rcases ht : api_download_try env req with ⟨r, t⟩
    rw [ht] at h
    rcases r with e2 | p
    · simp at h
    · simp only [Outcome.success.injEq] at h
      obtain ⟨hp, _, hc⟩ := h
      rw [← hc, hp]
  have hnot : path ∉ fs.filter (fun q => q ≠ path) := by simp
  refine ⟨hcl, ?_, hnot, ?_⟩
  · rw [hcl]
    exact unlink_existing_or_missing_ok fs path
  · rw [hcl]
    exact unlink_missing_ok_of_not_mem _ _ hnot

/-- Witness for C8 with the produced file present and then absent. -/
theorem c8_cleanup_deletes_ignoring_missing_witness :
    (api_download testEnv ⟨"https://youtu.be/abc", 720, "full", none, none⟩).1 =
      Outcome.success "downloads/full_video.mp4" "full_video.mp4"
        ⟨"downloads/full_video.mp4", true⟩ ∧
    unlink ["downloads/full_video.mp4", "downloads/other.mp4"]
        "downloads/full_video.mp4" true = .ok ["downloads/other.mp4"] ∧
    "downloads/full_video.mp4" ∉ ["downloads/other.mp4"] ∧
    unlink ["downloads/other.mp4"] "downloads/full_video.mp4" true =
      .ok ["downloads/other.mp4"] := by
  have h : (api_download testEnv ⟨"https://youtu.be/abc", 720, "full", none, none⟩).1 =
      Outcome.success "downloads/full_video.mp4" "full_video.mp4"
        ⟨"downloads/full_video.mp4", true⟩ := by decide
  have main := c8_cleanup_deletes_ignoring_missing testEnv
    ⟨"https://youtu.be/abc", 720, "full", none, none⟩
    "downloads/full_video.mp4" "full_video.mp4" ⟨"downloads/full_video.mp4", true⟩
    ["downloads/full_video.mp4", "downloads/other.mp4"] h
  exact ⟨h, main.2.1, main.2.2.1, main.2.2.2⟩

/-- Claim C9 (confirmed): any request whose lowercased mode differs from
`segment` — for example `banana` — behaves exactly like a full-mode
request: a full fetch is dispatched, no error is produced for the
unrecognized mode, and the time bounds are ignored. -/
theorem c9_nonsegment_is_full (env : Env) (url : String) (q : Int) (mode : String)
    (s e : Option Int) (hm : ¬ pyLower mode = "segment") :
    api_download env { url := url, quality := q, mode := mode, start_time := s, end_time := e } =
    api_download env { url := url, quality := q, mode := "full" } := by
  simp only [api_download, api_download_try]
  rw [if_neg hm, if_neg (by decide : ¬ pyLower "full" = "segment")]

/-- Witness for C9 at mode `banana` with both bounds present. -/
theorem c9_nonsegment_is_full_witness :
    ¬ pyLower "banana" = "segment" ∧
    api_download testEnv ⟨"https://youtu.be/abc", 480, "banana", some 3, some 4⟩ =
      api_download testEnv ⟨"https://youtu.be/abc", 480, "full", none, none⟩ :=
  ⟨by decide,
   c9_nonsegment_is_full testEnv "https://youtu.be/abc" 480 "banana" (some 3) (some 4)
     (by decide)⟩

/-- Claim C10 (confirmed): a URL whose netloc carries an explicit port
(digits after a colon) is rejected by the host check even on a recognized
domain, because the suffix comparison runs on the lowercased netloc
(`host:port`), whose last character is then a digit, never the final
letter of `youtube.com` or `youtu.be`. -/
theorem c10_explicit_port_rejected (url : String) (h p : List Char)
    (hn : (urlparseSchemeNetloc url).2 = h ++ ':' :: p)
    (hpne : p ≠ []) (hd : ∀ c ∈ p, c.isDigit = true) :
    is_youtube_url url = false := by
  have hdig : (p.getLast hpne).isDigit = true := hd _ (List.getLast_mem hpne)
  have hlow : (p.getLast hpne).toLower = p.getLast hpne := toLower_of_isDigit _ hdig
  have hlast : ((urlparseSchemeNetloc url).2.map Char.toLower).getLast? =
      some (p.getLast hpne) := by
    rw [hn, List.map_append, List.getLast?_append, List.map_cons]
    rw [show Char.toLower ':' :: p.map Char.toLower =
      [Char.toLower ':'] ++ p.map Char.toLower from rfl]
    rw [List.getLast?_append, getLast?_map_toLower, List.getLast?_eq_getLast p hpne]
    simp [hlow]
  have hyt : "youtube.com".data.isSuffixOf ((urlparseSchemeNetloc url).2.map Char.toLower)
      = false :=
    not_isSuffixOf_of_getLast_ne _ _ 'm' (p.getLast hpne) (by decide) hlast
      (fun heq => by rw [← heq] at hdig; exact absurd hdig (by decide))
  have hyb : "youtu.be".data.isSuffixOf ((urlparseSchemeNetloc url).2.map Char.toLower)
      = false :=
    not_isSuffixOf_of_getLast_ne _ _ 'e' (p.getLast hpne) (by decide) hlast
      (fun heq => by rw [← heq] at hdig; exact absurd hdig (by decide))
  unfold is_youtube_url
  by_cases hc : (urlparseSchemeNetloc url).1.isEmpty || (urlparseSchemeNetloc url).2.isEmpty
  · simp [hc]
  · simp [hc, hyt, hyb]

/-- Witness for C10 at `https://www.youtube.com:443/watch?v=x`. -/
theorem c10_explicit_port_rejected_witness :
    (urlparseSchemeNetloc "https://www.youtube.com:443/watch?v=x").2 =
      "www.youtube.com".data ++ ':' :: "443".data ∧
    "443".data ≠ [] ∧
    is_youtube_url "https://www.youtube.com:443/watch?v=x" = false :=
  ⟨by decide, by decide,
   c10_explicit_port_rejected "https://www.youtube.com:443/watch?v=x"
     "www.youtube.com".data "443".data (by decide) (by decide) (by decide)⟩
